import Mathlib

/-!
Shallow embedding of the Keralam dam-monitor service (src/main.py) and
verification of its specification claims.

Modelling conventions:
* JSON dam records become Lean structures (`Reading`, `Dam`, `Feed`) with all
  feed fields kept as strings, exactly as the Python code receives them.
* The outcome of the one network retrieval (`requests.get` + `raise_for_status`
  + `.json()`) is modelled as an explicit argument `net : Except FetchError Feed`
  to each fetch helper; `requests.RequestException` is `FetchError`.
* Python numeric values are modelled as exact rationals (ℚ).  Every decimal
  string the feed carries denotes an exact decimal, and all the code does with
  the parsed numbers is compare them and take absolute differences, operations
  on which binary floating point and ℚ agree for the orderings stated here.
* An uncaught Python exception (IndexError from `dam["data"][-1]` on an empty
  list) is modelled as `Except.error Fault.indexError`; a normal return is
  `Except.ok`.
* Python truthiness of an `Optional[str]` (`if not dam_id`) is `none` or `""`.
* `str.isdigit` is modelled over ASCII digits (`Char.isDigit`), the alphabet of
  the feed's numeric fields.
* Python `float`'s `repr` used when interpolating a parsed float into an
  f-string is abstracted by `floatRepr : ℚ → String`; no claim depends on the
  exact digits of that rendering.
-/

namespace Keralam

/-- One timestamped observation of a dam (an element of the feed's `data`
array).  All fields are decimal-encoded strings, as in the JSON feed. -/
structure Reading where
  date : String
  waterLevel : String
  storagePercentage : String
  liveStorage : String
  inflow : String
  totalOutflow : String
  powerHouseDischarge : String
  spillwayRelease : String
  rainfall : String
deriving DecidableEq, Repr

/-- One dam record of the feed document. -/
structure Dam where
  id : String
  name : String
  officialName : String
  FRL : String
  blueLevel : String
  orangeLevel : String
  redLevel : String
  data : List Reading
deriving DecidableEq, Repr

/-- The fetched feed document `{dams: [...]}`. -/
structure Feed where
  dams : List Dam
deriving DecidableEq, Repr

/-- A transport-layer fetch failure (`requests.RequestException`, including the
HTTP error raised by `response.raise_for_status()`). -/
inductive FetchError where
  | network
  | timeout
  | badStatus
deriving DecidableEq, Repr

/-- An uncaught Python exception escaping an operation. -/
inductive Fault where
  | indexError
deriving DecidableEq, Repr

/-! ### Numeric-string parsing

`main.py` guards `float(s)` by `s.replace('.', '', 1).isdigit()`: remove the
first `'.'` (if any) and require the remainder to be a non-empty digit string.
-/

/-- `s.replace('.', '', 1)` on the character list: drop the first `'.'`. -/
def stripFirstDot : List Char → List Char
  | [] => []
  | c :: rest => if c = '.' then rest else c :: stripFirstDot rest

/-- Split at the first `'.'`: integer part, and the fractional part when a dot
is present. -/
def splitFirstDot : List Char → List Char × Option (List Char)
  | [] => ([], Option.none)
  | c :: rest =>
    if c = '.' then ([], Option.some rest)
    else
      let p := splitFirstDot rest
      (c :: p.1, p.2)

/-- Value of a digit list read in base 10. -/
def digitsToNat (l : List Char) : Nat :=
  l.foldl (fun n c => 10 * n + (c.toNat - 48)) 0

/-- The guard `s.replace('.', '', 1).isdigit()` of `main.py`. -/
def decParses (s : String) : Bool :=
  !(stripFirstDot s.data).isEmpty && (stripFirstDot s.data).all Char.isDigit

/-- Exact value of a decimal string accepted by `decParses`
(`float(s)` for an unsigned decimal literal): the digits with the dot removed,
divided by ten to the number of fractional digits. -/
def decValue (s : String) : ℚ :=
  match splitFirstDot s.data with
  | (intPart, Option.none) => (digitsToNat intPart : ℚ)
  | (intPart, Option.some fracPart) =>
      mkRat (digitsToNat (intPart ++ fracPart)) (10 ^ fracPart.length)

/-- Python `float(s)` as used inside the `try` of the compare branch, restricted
to the sign-and-decimal literals the feed carries (the exotic `float` spellings
— exponents, `inf`, `nan`, underscores — do not occur in the feed's decimal
fields and no claim depends on them; an input outside this grammar simply
parses as `none`, i.e. raises, exactly as a non-numeric placeholder does). -/
def pyFloat (s : String) : Option ℚ :=
  match s.data with
  | '-' :: rest =>
      if !(stripFirstDot rest).isEmpty && (stripFirstDot rest).all Char.isDigit then
        Option.some (-(decValue (String.mk rest)))
      else Option.none
  | '+' :: rest =>
      if !(stripFirstDot rest).isEmpty && (stripFirstDot rest).all Char.isDigit then
        Option.some (decValue (String.mk rest))
      else Option.none
  | _ => if decParses s then Option.some (decValue s) else Option.none

/-! ### Alert evaluation (check_alerts branch, lines 88–99; the get_dam banner
at lines 69–76 uses the same sentinel scheme for orange/red).

`water_level = float(...) if ...isdigit() else 0`
`blue/orange/red_level = float(...) if ...isdigit() else 999`
-/

/-- `water_level` after the sentinel conversion: the parsed value, else `0`. -/
def effWaterLevel (r : Reading) : ℚ :=
  if decParses r.waterLevel then decValue r.waterLevel else 0

/-- `blue_level` after the sentinel conversion: the parsed value, else `999`. -/
def effBlueLevel (d : Dam) : ℚ :=
  if decParses d.blueLevel then decValue d.blueLevel else 999

/-- `orange_level` after the sentinel conversion: the parsed value, else `999`. -/
def effOrangeLevel (d : Dam) : ℚ :=
  if decParses d.orangeLevel then decValue d.orangeLevel else 999

/-- `red_level` after the sentinel conversion: the parsed value, else `999`. -/
def effRedLevel (d : Dam) : ℚ :=
  if decParses d.redLevel then decValue d.redLevel else 999

/-- Severity classification of a dam's reading. -/
inductive Alert where
  | none
  | blue
  | orange
  | red
deriving DecidableEq, Repr

/-- The `if/elif` cascade of the check_alerts branch: red, else orange, else
blue, else no alert. -/
def classify (d : Dam) (r : Reading) : Alert :=
  if effWaterLevel r ≥ effRedLevel d then Alert.red
  else if effWaterLevel r ≥ effOrangeLevel d then Alert.orange
  else if effWaterLevel r ≥ effBlueLevel d then Alert.blue
  else Alert.none

/-- Classification of a dam's latest reading (`dam["data"][-1]`), when one
exists. -/
def classifyLatest (d : Dam) : Option Alert :=
  Option.map (classify d) d.data.getLast?

/-- Abstraction of Python `repr(float)` used when an f-string interpolates a
parsed float (alert lines, comparison differences).  The exact digit sequence
of the rendering is not load-bearing for any claim. -/
def floatRepr (q : ℚ) : String :=
  toString q

/-! ### Fetch helpers (lines 194–226) -/

/-- `fetch_dam_data_from_api`: linear scan of the feed's dams, returning the
first record whose `id` matches; `{}` (here `none`) when no dam matches or the
request fails. -/
def fetch_dam_data_from_api (dam_id : String) (net : Except FetchError Feed) :
    Option Dam :=
  match net with
  | Except.ok feed => feed.dams.find? (fun d => d.id == dam_id)
  | Except.error _ => Option.none

/-- `fetch_all_dams_from_api`: the feed's `dams` array; `[]` when the request
fails. -/
def fetch_all_dams_from_api (net : Except FetchError Feed) : List Dam :=
  match net with
  | Except.ok feed => feed.dams
  | Except.error _ => []

/-! ### Query façade: the four `dam_monitor` branches -/

/-- One line of the list_all overview (line 43). -/
def listLine (d : Dam) (r : Reading) : String :=
  "• " ++ d.name ++ " (" ++ d.id ++ "): " ++ r.waterLevel ++ "m (" ++
    r.storagePercentage ++ "% full)\n"

/-- The list_all loop body: one line per dam from its latest reading;
`dam["data"][-1]` on an empty `data` raises IndexError. -/
def listAllLines : List Dam → Except Fault String
  | [] => Except.ok ""
  | d :: rest =>
    match d.data.getLast? with
    | Option.none => Except.error Fault.indexError
    | Option.some r =>
      match listAllLines rest with
      | Except.ok s => Except.ok (listLine d r ++ s)
      | Except.error e => Except.error e

/-- The list_all branch (lines 35–45): header plus one line per dam. -/
def list_all (dams : List Dam) : Except Fault String :=
  match listAllLines dams with
  | Except.ok s => Except.ok ("Current Dam Status Overview:\n\n" ++ s)
  | Except.error e => Except.error e

/-- The alert line appended for a dam in the check_alerts loop, `none` when the
classification is no-alert (lines 94–99). -/
def alertLine (d : Dam) (r : Reading) : Option String :=
  match classify d r with
  | Alert.red =>
      Option.some ("🚨 CRITICAL: " ++ d.name ++ " is at RED alert level (" ++
        floatRepr (effWaterLevel r) ++ "m)")
  | Alert.orange =>
      Option.some ("⚠️ WARNING: " ++ d.name ++ " is at ORANGE alert level (" ++
        floatRepr (effWaterLevel r) ++ "m)")
  | Alert.blue =>
      Option.some ("ℹ️ NOTICE: " ++ d.name ++ " is at BLUE alert level (" ++
        floatRepr (effWaterLevel r) ++ "m)")
  | Alert.none => Option.none

/-- The check_alerts loop: collect alert lines over all dams;
`dam["data"][-1]` on an empty `data` raises IndexError. -/
def alertLines : List Dam → Except Fault (List String)
  | [] => Except.ok []
  | d :: rest =>
    match d.data.getLast? with
    | Option.none => Except.error Fault.indexError
    | Option.some r =>
      match alertLines rest with
      | Except.ok ls =>
        Except.ok (match alertLine d r with
          | Option.some l => l :: ls
          | Option.none => ls)
      | Except.error e => Except.error e

/-- The check_alerts branch (lines 80–104). -/
def check_alerts (dams : List Dam) : Except Fault String :=
  match alertLines dams with
  | Except.error e => Except.error e
  | Except.ok alerts =>
    if alerts.isEmpty then Except.ok "No dams currently at alert levels."
    else Except.ok ("Dam Alert Status:\n\n" ++ String.intercalate "\n" alerts)

/-- The detail block of the get_dam branch (lines 60–78), including the
orange/red alert banner computed with the same sentinel parses. -/
def renderDamDetail (dam : Dam) (latest : Reading) : String :=
  let base :=
    "## " ++ dam.name ++ " (" ++ dam.officialName ++ ")\n\n" ++
    "**Current Status** (as of " ++ latest.date ++ "):\n" ++
    "- Water Level: " ++ latest.waterLevel ++ "m (FRL: " ++ dam.FRL ++ "m)\n" ++
    "- Storage: " ++ latest.liveStorage ++ " MCM (" ++ latest.storagePercentage ++
      "% of capacity)\n" ++
    "- Inflow: " ++ latest.inflow ++ " m³/s\n" ++
    "- Outflow: " ++ latest.totalOutflow ++ " m³/s (Power: " ++
      latest.powerHouseDischarge ++ " m³/s, Spillway: " ++
      latest.spillwayRelease ++ " m³/s)\n" ++
    "- Recent Rainfall: " ++ latest.rainfall ++ " mm\n\n"
  if effWaterLevel latest ≥ effRedLevel dam then
    base ++ "⚠️ **DANGER ALERT**: Water level has reached or exceeded red alert level!\n"
  else if effWaterLevel latest ≥ effOrangeLevel dam then
    base ++ "⚠️ **WARNING**: Water level has reached or exceeded orange alert level!\n"
  else
    base

/-- The get_dam branch (lines 47–78).  `if not dam_id` is Python truthiness:
`None` or the empty string. -/
def get_dam (dam_id : Option String) (net : Except FetchError Feed) :
    Except Fault String :=
  match dam_id with
  | Option.none => Except.ok "Error: dam_id is required for get_dam action"
  | Option.some did =>
    if did.isEmpty then Except.ok "Error: dam_id is required for get_dam action"
    else
      match fetch_dam_data_from_api did net with
      | Option.none => Except.ok ("No data found for dam ID: " ++ did)
      | Option.some dam =>
        match dam.data.getLast? with
        | Option.none => Except.error Fault.indexError
        | Option.some latest => Except.ok (renderDamDetail dam latest)

/-- The four values of the `metric` Literal parameter. -/
inductive Metric where
  | waterLevel
  | storagePercentage
  | inflow
  | totalOutflow
deriving DecidableEq, Repr

/-- The metric's name string (the Literal value). -/
def metricName : Metric → String
  | Metric.waterLevel => "waterLevel"
  | Metric.storagePercentage => "storagePercentage"
  | Metric.inflow => "inflow"
  | Metric.totalOutflow => "totalOutflow"

/-- Unit label chosen from the metric name alone (lines 127–133). -/
def metricUnit : Metric → String
  | Metric.waterLevel => "meters"
  | Metric.storagePercentage => "%"
  | Metric.inflow => "m³/s"
  | Metric.totalOutflow => "m³/s"

/-- `latest[metric]`: the raw string value of the metric field. -/
def metricValue (m : Metric) (r : Reading) : String :=
  match m with
  | Metric.waterLevel => r.waterLevel
  | Metric.storagePercentage => r.storagePercentage
  | Metric.inflow => r.inflow
  | Metric.totalOutflow => r.totalOutflow

/-- The raw string value of a metric at a dam's latest reading, when one
exists. -/
def damLatestMetric (d : Dam) (m : Metric) : Option String :=
  Option.map (metricValue m) d.data.getLast?

/-- Which dam the comparison conclusion names as higher. -/
inductive Leader where
  | first
  | second
  | tie
  | unknown
deriving DecidableEq, Repr

/-- The same dam seen from swapped argument order. -/
def Leader.swap : Leader → Leader
  | Leader.first => Leader.second
  | Leader.second => Leader.first
  | Leader.tie => Leader.tie
  | Leader.unknown => Leader.unknown

/-- Structured content of the comparison conclusion (lines 140–152): the
`try` block computes `diff = abs(val1 - val2)` and picks the larger dam; the
`except` produces no delta and no leader. -/
structure CompareNum where
  delta : Option ℚ
  leader : Leader
deriving DecidableEq, Repr

/-- The numeric comparison of the two raw metric strings. -/
def compareNumeric (v1 v2 : String) : CompareNum :=
  match pyFloat v1, pyFloat v2 with
  | Option.some a, Option.some b =>
    if a > b then CompareNum.mk (Option.some |a - b|) Leader.first
    else if b > a then CompareNum.mk (Option.some |a - b|) Leader.second
    else CompareNum.mk (Option.some |a - b|) Leader.tie
  | _, _ => CompareNum.mk Option.none Leader.unknown

/-- The part of the comparison output built before the `try` (lines 136–138):
both raw values with the unit label. -/
def compareBase (dam1 dam2 : Dam) (v1 v2 : String) (m : Metric) : String :=
  "Comparison of " ++ metricName m ++ " between dams:\n\n" ++
  "• " ++ dam1.name ++ ": " ++ v1 ++ " " ++ metricUnit m ++ "\n" ++
  "• " ++ dam2.name ++ ": " ++ v2 ++ " " ++ metricUnit m ++ "\n\n"

/-- The conclusion appended by the `try`/`except` (lines 140–152). -/
def compareConclusion (dam1 dam2 : Dam) (v1 v2 : String) (m : Metric) : String :=
  match pyFloat v1, pyFloat v2 with
  | Option.some a, Option.some b =>
    if a > b then
      dam1.name ++ " is " ++ floatRepr |a - b| ++ " " ++ metricUnit m ++
        " higher than " ++ dam2.name
    else if b > a then
      dam2.name ++ " is " ++ floatRepr |a - b| ++ " " ++ metricUnit m ++
        " higher than " ++ dam1.name
    else
      "Both dams have the same " ++ metricName m ++ " value"
  | _, _ => "Unable to calculate numerical difference"

/-- The compare branch (lines 106–154).  Argument truthiness checks first,
then both fetches, then `data[-1]` on each (IndexError on an empty history),
then the rendered base plus conclusion. -/
def compare (dam_id second_dam_id : Option String) (metric : Option Metric)
    (net : Except FetchError Feed) : Except Fault String :=
  match dam_id, second_dam_id with
  | Option.some did1, Option.some did2 =>
    if did1.isEmpty || did2.isEmpty then
      Except.ok "Error: Both dam_id and second_dam_id are required for comparison"
    else
      match metric with
      | Option.none => Except.ok "Error: metric is required for comparison"
      | Option.some m =>
        match fetch_dam_data_from_api did1 net, fetch_dam_data_from_api did2 net with
        | Option.some dam1, Option.some dam2 =>
          match dam1.data.getLast?, dam2.data.getLast? with
          | Option.some r1, Option.some r2 =>
            Except.ok (compareBase dam1 dam2 (metricValue m r1) (metricValue m r2) m ++
              compareConclusion dam1 dam2 (metricValue m r1) (metricValue m r2) m)
          | _, _ => Except.error Fault.indexError
        | _, _ => Except.ok "Error: One or both dam IDs are invalid"
  | _, _ => Except.ok "Error: Both dam_id and second_dam_id are required for comparison"

/-- The `action` Literal of `dam_monitor`. -/
inductive Action where
  | get_dam
  | list_all
  | check_alerts
  | compare
deriving DecidableEq, Repr

/-- The `dam_monitor` tool: dispatch on `action`. -/
def dam_monitor (action : Action) (dam_id second_dam_id : Option String)
    (metric : Option Metric) (net : Except FetchError Feed) :
    Except Fault String :=
  match action with
  | Action.list_all => list_all (fetch_all_dams_from_api net)
  | Action.get_dam => get_dam dam_id net
  | Action.check_alerts => check_alerts (fetch_all_dams_from_api net)
  | Action.compare => compare dam_id second_dam_id metric net

/-! ### Resources (lines 159–191) -/

/-- The `dam://{dam_id}` resource: returns `fetch_dam_data_from_api` directly
(the empty dict, here `none`, both on a missing id and on a fetch failure). -/
def get_dam_data (dam_id : String) (net : Except FetchError Feed) : Option Dam :=
  fetch_dam_data_from_api dam_id net

/-- The `dams://list` resource: returns `fetch_all_dams_from_api` directly. -/
def list_dams (net : Except FetchError Feed) : List Dam :=
  fetch_all_dams_from_api net

/-! ### Concrete records for witnesses and counterexamples -/

/-- A reading with the given water level and storage percentage. -/
def mkReading (wl sp : String) : Reading :=
  { date := "2025-10-01", waterLevel := wl, storagePercentage := sp,
    liveStorage := "10", inflow := "5", totalOutflow := "3",
    powerHouseDischarge := "2", spillwayRelease := "1", rainfall := "0" }

def idukkiReading : Reading := mkReading "2398.5" "71.2"

def idukkiDam : Dam :=
  { id := "idukki", name := "Idukki", officialName := "Idukki Dam",
    FRL := "2403.0", blueLevel := "2396.0", orangeLevel := "2400.0",
    redLevel := "2403.0", data := [idukkiReading] }

def mullaperiyarReading : Reading := mkReading "136.0" "N/A"

def mullaperiyarDam : Dam :=
  { id := "mullaperiyar", name := "Mullaperiyar",
    officialName := "Mullaperiyar Dam", FRL := "142.0", blueLevel := "136.0",
    orangeLevel := "138.0", redLevel := "142.0",
    data := [mullaperiyarReading] }

/-- A dam whose thresholds are all the non-numeric placeholder, with a parsed
water level above the 999 sentinel. -/
def sentinelReading : Reading := mkReading "1000" "50"

def sentinelDam : Dam :=
  { id := "sentinel", name := "Sentinel", officialName := "Sentinel Dam",
    FRL := "1100", blueLevel := "N/A", orangeLevel := "N/A", redLevel := "N/A",
    data := [sentinelReading] }

/-- A dam whose latest water level is the non-numeric placeholder and whose
thresholds are ordinary positive decimals. -/
def naReading : Reading := mkReading "N/A" "50"

def naDam : Dam :=
  { id := "na", name := "NA", officialName := "NA Dam", FRL := "100",
    blueLevel := "80", orangeLevel := "90", redLevel := "95",
    data := [naReading] }

/-- A dam record with an empty readings history. -/
def emptyDam : Dam :=
  { id := "emptyhist", name := "EmptyHist", officialName := "EmptyHist Dam",
    FRL := "10", blueLevel := "1", orangeLevel := "2", redLevel := "3",
    data := [] }

/-- A second record carrying the same id as `idukkiDam` but a different name,
for duplicate-id lookups. -/
def idukkiShadowDam : Dam :=
  { id := "idukki", name := "Idukki Shadow", officialName := "Idukki Shadow Dam",
    FRL := "2403.0", blueLevel := "2396.0", orangeLevel := "2400.0",
    redLevel := "2403.0", data := [mkReading "1.0" "1.0"] }

end Keralam

namespace Keralam

/-! ### Claim theorems -/

/-- C1: for every dam record with at least one reading, the alert
classification is one of {None, Blue, Orange, Red}, follows the fixed
red-before-orange-before-blue precedence of the check_alerts cascade, and is
Red whenever the effective water level reaches the effective red threshold,
regardless of the blue/orange values. -/
theorem classify_precedence (d : Dam) (r : Reading)
    (h : d.data.getLast? = Option.some r) :
    classifyLatest d = Option.some (classify d r)
    ∧ (classify d r = Alert.none ∨ classify d r = Alert.blue ∨
       classify d r = Alert.orange ∨ classify d r = Alert.red)
    ∧ (effWaterLevel r ≥ effRedLevel d → classify d r = Alert.red)
    ∧ (effWaterLevel r < effRedLevel d → effWaterLevel r ≥ effOrangeLevel d →
       classify d r = Alert.orange)
    ∧ (effWaterLevel r < effRedLevel d → effWaterLevel r < effOrangeLevel d →
       effWaterLevel r ≥ effBlueLevel d → classify d r = Alert.blue)
    ∧ (effWaterLevel r < effRedLevel d → effWaterLevel r < effOrangeLevel d →
       effWaterLevel r < effBlueLevel d → classify d r = Alert.none) := by
  refine ⟨by simp [classifyLatest, h], ?_, ?_, ?_, ?_, ?_⟩
  · unfold classify
    split_ifs <;> simp
  · intro hred
    simp [classify, hred]
  · intro hred horange
    simp [classify, not_le.mpr hred, horange]
  · intro hred horange hblue
    simp [classify, not_le.mpr hred, not_le.mpr horange, hblue]
  · intro hred horange hblue
    simp [classify, not_le.mpr hred, not_le.mpr horange, not_le.mpr hblue]

/-- C1 witness: Idukki's water level 2398.5 sits below the 2403.0 red and
2400.0 orange thresholds but at or above the 2396.0 blue threshold, so the
classification is Blue. -/
theorem classify_precedence_witness :
    classify idukkiDam idukkiReading = Alert.blue :=
  (classify_precedence idukkiDam idukkiReading rfl).2.2.2.2.1
    (by decide) (by decide) (by decide)

/-- C2 counterexample: a threshold that does not parse is not treated as +∞.
`sentinelDam` has the unparsable red threshold "N/A" and the parsable water
level "1000"; the code substitutes 999 for the threshold, so the red alert
fires even though the claim says an unparsable threshold never triggers. -/
theorem unparsable_threshold_triggers :
    decParses sentinelDam.redLevel = false
    ∧ classify sentinelDam sentinelReading = Alert.red := by
  decide

/-- C2 amended: an unparsable threshold is substituted with the finite
sentinel 999 (not +∞), so it does not trigger only while the effective water
level stays below 999; an unparsable water level is substituted with 0 (not a
minimum), so it yields classification None only when every effective
threshold is positive. -/
theorem sentinel_substitution (d : Dam) (r : Reading) :
    (decParses d.redLevel = false → effRedLevel d = 999)
    ∧ (decParses r.waterLevel = false → effWaterLevel r = 0)
    ∧ (effWaterLevel r < 999 → decParses d.redLevel = false →
        classify d r ≠ Alert.red)
    ∧ (decParses r.waterLevel = false → 0 < effBlueLevel d →
        0 < effOrangeLevel d → 0 < effRedLevel d →
        classify d r = Alert.none) := by
  refine ⟨?_, ?_, ?_, ?_⟩
  · intro h
    simp [effRedLevel, h]
  · intro h
    simp [effWaterLevel, h]
  · intro hlt h
    have hred : effRedLevel d = 999 := by simp [effRedLevel, h]
    unfold classify
    rw [hred]
    simp only [ge_iff_le, not_le.mpr hlt, if_false]
    split_ifs <;> simp
  · intro hw hb ho hr
    have hwl : effWaterLevel r = 0 := by simp [effWaterLevel, hw]
    unfold classify
    rw [hwl]
    simp [not_le.mpr hb, not_le.mpr ho, not_le.mpr hr]

/-- C2 amended witness: `naDam` has the unparsable water level "N/A" and
positive thresholds 80/90/95, so the classification is None. -/
theorem sentinel_substitution_witness :
    classify naDam naReading = Alert.none :=
  (sentinel_substitution naDam naReading).2.2.2
    (by decide) (by decide) (by decide) (by decide)

/-- C3 counterexample: a dam with zero readings is not skipped.  On a feed
holding one dam with an empty `data` array, both list_all and check_alerts
index `dam["data"][-1]` and fault with IndexError instead of producing
output. -/
theorem empty_readings_fault :
    list_all [emptyDam] = Except.error Fault.indexError
    ∧ check_alerts [emptyDam] = Except.error Fault.indexError :=
  ⟨rfl, rfl⟩

/-- Auxiliary: a non-empty list has a last element. -/
theorem exists_getLast?_of_ne_nil {α : Type} {l : List α} (h : l ≠ []) :
    ∃ a, l.getLast? = Option.some a := by
  cases hl : l.getLast? with
  | some a => exact ⟨a, rfl⟩
  | none => exact absurd (List.getLast?_eq_none_iff.mp hl) h

/-- Auxiliary: the list_all loop succeeds when every dam has a reading. -/
theorem listAllLines_ok (dams : List Dam) (h : ∀ d ∈ dams, d.data ≠ []) :
    ∃ s, listAllLines dams = Except.ok s := by
  induction dams with
  | nil => exact ⟨"", rfl⟩
  | cons d rest ih =>
    obtain ⟨r, hr⟩ := exists_getLast?_of_ne_nil (h d (List.mem_cons_self d rest))
    obtain ⟨s, hs⟩ := ih (fun x hx => h x (List.mem_cons_of_mem d hx))
    exact ⟨listLine d r ++ s, by simp [listAllLines, hr, hs]⟩

/-- Auxiliary: the check_alerts loop succeeds when every dam has a reading. -/
theorem alertLines_ok (dams : List Dam) (h : ∀ d ∈ dams, d.data ≠ []) :
    ∃ ls, alertLines dams = Except.ok ls := by
  induction dams with
  | nil => exact ⟨[], rfl⟩
  | cons d rest ih =>
    obtain ⟨r, hr⟩ := exists_getLast?_of_ne_nil (h d (List.mem_cons_self d rest))
    obtain ⟨ls, hls⟩ := ih (fun x hx => h x (List.mem_cons_of_mem d hx))
    refine ⟨?_, ?_⟩
    · exact match alertLine d r with
        | Option.some l => l :: ls
        | Option.none => ls
    · simp [alertLines, hr, hls]

/-- C3 amended: list_all and check_alerts do not skip a dam whose readings
sequence is empty — such a dam faults the whole operation with IndexError (see
the counterexample); both operations succeed exactly when every dam in the
feed has at least one reading. -/
theorem no_fault_iff_all_nonempty (dams : List Dam)
    (h : ∀ d ∈ dams, d.data ≠ []) :
    (∃ s, list_all dams = Except.ok s)
    ∧ ∃ s, check_alerts dams = Except.ok s := by
  constructor
  · obtain ⟨s, hs⟩ := listAllLines_ok dams h
    exact ⟨"Current Dam Status Overview:\n\n" ++ s, by simp [list_all, hs]⟩
  · obtain ⟨ls, hls⟩ := alertLines_ok dams h
    by_cases he : ls.isEmpty
    · exact ⟨"No dams currently at alert levels.", by simp [check_alerts, hls, he]⟩
    · exact ⟨"Dam Alert Status:\n\n" ++ String.intercalate "\n" ls,
        by simp [check_alerts, hls, he]⟩

/-- C3 amended witness: on a feed whose only dam has a reading, both
operations return normally. -/
theorem no_fault_iff_all_nonempty_witness :
    (∃ s, list_all [idukkiDam] = Except.ok s)
    ∧ ∃ s, check_alerts [idukkiDam] = Except.ok s :=
  no_fault_iff_all_nonempty [idukkiDam] (by decide)

/-- C4 counterexample: there is no cached prior snapshot.  A first successful
fetch returns the feed's dams; a subsequent failing fetch returns the empty
list, not the previously fetched snapshot. -/
theorem failed_refresh_loses_prior :
    fetch_all_dams_from_api (Except.ok (Feed.mk [idukkiDam])) = [idukkiDam]
    ∧ fetch_all_dams_from_api (Except.error FetchError.network) = []
    ∧ ([] : List Dam) ≠ [idukkiDam] :=
  ⟨rfl, rfl, by decide⟩

/-- C4 amended: on a fetch failure the data-access layer returns an empty
result (empty list / empty dict) unconditionally — it holds no prior snapshot
to fall back on — and never propagates the fetch error to the caller. -/
theorem fetch_failure_returns_empty (e : FetchError) (dam_id : String) :
    fetch_all_dams_from_api (Except.error e) = []
    ∧ fetch_dam_data_from_api dam_id (Except.error e) = Option.none :=
  ⟨rfl, rfl⟩

/-- C5 counterexample: on the feed `{dams: []}` list_all returns exactly the
fixed header with no dam lines — a header-only block, not a "no dams"
message. -/
theorem list_all_empty_feed_header_only :
    list_all (fetch_all_dams_from_api (Except.ok (Feed.mk []))) =
      Except.ok "Current Dam Status Overview:\n\n" :=
  rfl

/-- C5 amended: when the fetched document's dams array is empty, list_all
renders the fixed overview header followed by nothing. -/
theorem list_all_empty_feed (f : Feed) (h : f.dams = []) :
    list_all (fetch_all_dams_from_api (Except.ok f)) =
      Except.ok "Current Dam Status Overview:\n\n" := by
  simp [fetch_all_dams_from_api, h, list_all, listAllLines]

/-- C5 amended witness: the empty feed document. -/
theorem list_all_empty_feed_witness :
    list_all (fetch_all_dams_from_api (Except.ok (Feed.mk []))) =
      Except.ok "Current Dam Status Overview:\n\n" :=
  list_all_empty_feed (Feed.mk []) rfl

/-- A two-dam feed used by several witnesses. -/
def demoFeed : Feed := Feed.mk [idukkiDam, mullaperiyarDam]

/-- C6: comparison is antisymmetric.  For any two dams whose latest readings
supply the metric strings, swapping the arguments leaves the delta unchanged
and swaps the leader (so the same dam is reported as higher, and the rendered
conclusion is literally the same sentence); when both values parse the delta
is `|A − B|` and the leader is the dam with the larger value, or a tie when
equal. -/
theorem compare_antisymmetric (A B : Dam) (m : Metric) (vA vB : String)
    (_hA : damLatestMetric A m = Option.some vA)
    (_hB : damLatestMetric B m = Option.some vB) :
    (compareNumeric vA vB).delta = (compareNumeric vB vA).delta
    ∧ (compareNumeric vA vB).leader = Leader.swap (compareNumeric vB vA).leader
    ∧ compareConclusion A B vA vB m = compareConclusion B A vB vA m
    ∧ (∀ a b, pyFloat vA = Option.some a → pyFloat vB = Option.some b →
        (compareNumeric vA vB).delta = Option.some |a - b|
        ∧ (a > b → (compareNumeric vA vB).leader = Leader.first)
        ∧ (b > a → (compareNumeric vA vB).leader = Leader.second)
        ∧ (a = b → (compareNumeric vA vB).leader = Leader.tie)) := by
  cases h1 : pyFloat vA with
  | none =>
    cases h2 : pyFloat vB with
    | none =>
      simp [compareNumeric, compareConclusion, h1, h2, Leader.swap]
    | some b =>
      simp [compareNumeric, compareConclusion, h1, h2, Leader.swap]
  | some a =>
    cases h2 : pyFloat vB with
    | none =>
      simp [compareNumeric, compareConclusion, h1, h2, Leader.swap]
    | some b =>
      rcases lt_trichotomy a b with hab | hab | hab
      · have hna : ¬ a > b := not_lt.mpr hab.le
        have hnb : b > a := hab
        simp [compareNumeric, compareConclusion, h1, h2, hna, hnb, Leader.swap,
          abs_sub_comm a b]
        exact ⟨hab.le, hab.ne⟩
      · subst hab
        have hna : ¬ a > a := lt_irrefl a
        simp [compareNumeric, compareConclusion, h1, h2, hna, Leader.swap,
          abs_sub_comm a a]
      · have hna : a > b := hab
        have hnb : ¬ b > a := not_lt.mpr hab.le
        simp [compareNumeric, compareConclusion, h1, h2, hna, hnb, Leader.swap,
          abs_sub_comm a b]
        exact ⟨hab.le, hab.ne'⟩

/-- C6 witness: Idukki's storage percentage "71.2" against Mullaperiyar's
non-numeric "N/A", in both argument orders. -/
theorem compare_antisymmetric_witness :
    (compareNumeric "71.2" "N/A").delta = (compareNumeric "N/A" "71.2").delta
    ∧ (compareNumeric "71.2" "N/A").leader =
        Leader.swap (compareNumeric "N/A" "71.2").leader :=
  ⟨(compare_antisymmetric idukkiDam mullaperiyarDam Metric.storagePercentage
      "71.2" "N/A" rfl rfl).1,
   (compare_antisymmetric idukkiDam mullaperiyarDam Metric.storagePercentage
      "71.2" "N/A" rfl rfl).2.1⟩

/-- C7: when either extracted metric value fails to parse, compare still
returns normally: the output reports both raw string values and ends with the
"Unable to calculate numerical difference" conclusion, and the structured
comparison carries no delta and no leader. -/
theorem compare_parse_failure_degrades (did1 did2 : String) (m : Metric)
    (net : Except FetchError Feed) (dam1 dam2 : Dam) (r1 r2 : Reading)
    (h1 : did1 ≠ "") (h2 : did2 ≠ "")
    (hf1 : fetch_dam_data_from_api did1 net = Option.some dam1)
    (hf2 : fetch_dam_data_from_api did2 net = Option.some dam2)
    (hr1 : dam1.data.getLast? = Option.some r1)
    (hr2 : dam2.data.getLast? = Option.some r2)
    (hp : pyFloat (metricValue m r1) = Option.none ∨
          pyFloat (metricValue m r2) = Option.none) :
    compare (Option.some did1) (Option.some did2) (Option.some m) net =
      Except.ok ("Comparison of " ++ metricName m ++ " between dams:\n\n" ++
        "• " ++ dam1.name ++ ": " ++ metricValue m r1 ++ " " ++ metricUnit m ++ "\n" ++
        "• " ++ dam2.name ++ ": " ++ metricValue m r2 ++ " " ++ metricUnit m ++ "\n\n" ++
        "Unable to calculate numerical difference")
    ∧ compareNumeric (metricValue m r1) (metricValue m r2) =
        CompareNum.mk Option.none Leader.unknown := by
  have he1 : did1.isEmpty = false := by
    rcases h : did1.isEmpty with _ | _
    · rfl
    · exact absurd ((String.isEmpty_iff did1).mp h) h1
  have he2 : did2.isEmpty = false := by
    rcases h : did2.isEmpty with _ | _
    · rfl
    · exact absurd ((String.isEmpty_iff did2).mp h) h2
  have hcc : compareConclusion dam1 dam2 (metricValue m r1) (metricValue m r2) m =
      "Unable to calculate numerical difference" := by
    rcases hp with hp | hp
    · cases hq : pyFloat (metricValue m r2) <;>
        simp [compareConclusion, hp, hq]
    · cases hq : pyFloat (metricValue m r1) <;>
        simp [compareConclusion, hp, hq]
  have hcn : compareNumeric (metricValue m r1) (metricValue m r2) =
      CompareNum.mk Option.none Leader.unknown := by
    rcases hp with hp | hp
    · cases hq : pyFloat (metricValue m r2) <;>
        simp [compareNumeric, hp, hq]
    · cases hq : pyFloat (metricValue m r1) <;>
        simp [compareNumeric, hp, hq]
  refine ⟨?_, hcn⟩
  simp only [compare, he1, he2, Bool.or_self, Bool.false_eq_true, if_false,
    hf1, hf2, hr1, hr2, hcc, compareBase]

/-- C7 witness: comparing Idukki's "71.2" storage percentage against
Mullaperiyar's "N/A" on the demo feed. -/
theorem compare_parse_failure_degrades_witness :
    compare (Option.some "idukki") (Option.some "mullaperiyar")
      (Option.some Metric.storagePercentage) (Except.ok demoFeed) =
      Except.ok ("Comparison of " ++ metricName Metric.storagePercentage ++
        " between dams:\n\n" ++
        "• " ++ idukkiDam.name ++ ": " ++ "71.2" ++ " " ++
          metricUnit Metric.storagePercentage ++ "\n" ++
        "• " ++ mullaperiyarDam.name ++ ": " ++ "N/A" ++ " " ++
          metricUnit Metric.storagePercentage ++ "\n\n" ++
        "Unable to calculate numerical difference")
    ∧ compareNumeric "71.2" "N/A" = CompareNum.mk Option.none Leader.unknown :=
  compare_parse_failure_degrades "idukki" "mullaperiyar"
    Metric.storagePercentage (Except.ok demoFeed) idukkiDam mullaperiyarDam
    idukkiReading mullaperiyarReading (by decide) (by decide)
    rfl rfl rfl rfl (Or.inr rfl)

/-- C8: get_dam on an id absent from the fetched snapshot returns the
descriptive "No data found for dam ID: …" message naming the id, as a normal
return — never a fault. -/
theorem get_dam_absent_id (did : String) (f : Feed)
    (hne : did ≠ "") (habs : ∀ d ∈ f.dams, d.id ≠ did) :
    get_dam (Option.some did) (Except.ok f) =
      Except.ok ("No data found for dam ID: " ++ did) := by
  have he : did.isEmpty = false := by
    rcases h : did.isEmpty with _ | _
    · rfl
    · exact absurd ((String.isEmpty_iff did).mp h) hne
  have hfind : f.dams.find? (fun d => d.id == did) = Option.none :=
    List.find?_eq_none.mpr (fun d hd => by simp [habs d hd])
  simp [get_dam, he, fetch_dam_data_from_api, hfind]

/-- C8 witness: the id "kakki" is absent from the demo feed. -/
theorem get_dam_absent_id_witness :
    get_dam (Option.some "kakki") (Except.ok demoFeed) =
      Except.ok ("No data found for dam ID: " ++ "kakki") :=
  get_dam_absent_id "kakki" demoFeed (by decide) (by decide)

/-- C9: lookup by id is the linear scan of `fetch_dam_data_from_api`, so with
duplicate ids in the feed the first matching record in feed order is returned
— the record get_dam and compare then operate on. -/
theorem lookup_first_of_duplicates (did : String) (pre post : List Dam)
    (d : Dam) (hpre : ∀ x ∈ pre, x.id ≠ did) (hd : d.id = did) :
    fetch_dam_data_from_api did (Except.ok (Feed.mk (pre ++ d :: post))) =
      Option.some d := by
  induction pre with
  | nil =>
    simp [fetch_dam_data_from_api, List.find?_cons_of_pos, hd]
  | cons x xs ih =>
    have hx : (x.id == did) = false := by
      simp [hpre x (List.mem_cons_self x xs)]
    have hrest := ih (fun y hy => hpre y (List.mem_cons_of_mem x hy))
    simpa [fetch_dam_data_from_api, List.find?_cons_of_neg, hx] using hrest

/-- C9 witness: a feed listing two records with id "idukki"; lookup returns
the first one. -/
theorem lookup_first_of_duplicates_witness :
    fetch_dam_data_from_api "idukki"
      (Except.ok (Feed.mk [idukkiDam, idukkiShadowDam])) =
      Option.some idukkiDam :=
  lookup_first_of_duplicates "idukki" [] [idukkiShadowDam] idukkiDam
    (by decide) rfl

/-- C10: the `dam://{dam_id}` resource returns the empty dict (`none`) both
when the id matches no dam and when the fetch fails, and the two results are
equal — indistinguishable to the resource's caller. -/
theorem resource_lookup_indistinguishable (did : String) (f : Feed)
    (e : FetchError) (habs : ∀ d ∈ f.dams, d.id ≠ did) :
    get_dam_data did (Except.ok f) = Option.none
    ∧ get_dam_data did (Except.error e) = Option.none
    ∧ get_dam_data did (Except.ok f) = get_dam_data did (Except.error e) := by
  have hfind : f.dams.find? (fun d => d.id == did) = Option.none :=
    List.find?_eq_none.mpr (fun d hd => by simp [habs d hd])
  refine ⟨?_, rfl, ?_⟩ <;>
    simp [get_dam_data, fetch_dam_data_from_api, hfind]

/-- C10 witness: the id "kakki" on the demo feed versus a network failure. -/
theorem resource_lookup_indistinguishable_witness :
    get_dam_data "kakki" (Except.ok demoFeed) = Option.none
    ∧ get_dam_data "kakki" (Except.error FetchError.network) = Option.none
    ∧ get_dam_data "kakki" (Except.ok demoFeed) =
        get_dam_data "kakki" (Except.error FetchError.network) :=
  resource_lookup_indistinguishable "kakki" demoFeed FetchError.network
    (by decide)

end Keralam
